import Mathlib

/-!
Verification development for the Getravio image-processing backend.

The definitions below are a shallow embedding of the Python sources:
  - `src/backend/api/models.py`        (the `Job` record)
  - `src/backend/api/serializers.py`   (`JobSerializer`)
  - `src/backend/api/s3_storage.py`    (`S3Storage`)
  - `src/backend/api/tasks.py`         (`process_image_generation` and the
    WebSocket senders)
  - `src/backend/api/consumers.py`     (`JobStatusConsumer`)
  - `src/backend/api/middleware.py`    (`TokenAuthMiddleware`)
  - `src/backend/api/views.py`         (`JobViewSet.perform_destroy`)
  - `src/backend/api/sample_images.py` (sample placeholder URLs)

Machine integers of the source are modelled as `Nat`, byte blobs as
`List Nat`, Python `None` as `Option.none`, and raising code as `Except`.
Auto-managed timestamp columns (`created_at`, `updated_at`) are not
modelled: no claim below depends on wall-clock time.
-/

namespace Getravio

/-! ## Data model: `Job` (models.py, class Job)

`STATUS_CHOICES` is `queued / processing / completed / failed`. -/

inductive Status where
  | queued
  | processing
  | completed
  | failed
deriving DecidableEq, Repr

/-- The `Job` model of `models.py` (lines 54-124).  Django model fields, in
source order; `user` is modelled by its id.  `ImageField` values are
`Option String`: `none` is an empty/absent file (falsy in Python), `some n`
a stored blob name.  The field `scenarioLevel` embeds the source field
named `scenario`.  Note the model has NO error-detail field of any kind. -/
structure Job where
  id : Nat
  userId : Nat
  region : String
  scenarioLevel : String
  status : Status
  message : Option String
  selectedSimulation : Option String
  isFavorite : Bool
  originalImage : Option String
  simulation1Image : Option String
  simulation2Image : Option String
deriving DecidableEq, Repr

/-- The exact `Meta.fields` list of `JobSerializer` (serializers.py,
lines 75-92): every field name appearing in a serialized job snapshot. -/
def jobSerializerFields : List String :=
  ["id", "user", "region", "scenario", "status", "message",
   "original_image", "original_image_url",
   "simulation1_image", "simulation1_url",
   "simulation2_image", "simulation2_url",
   "selected_simulation", "is_favorite", "created_at", "updated_at"]

/-- Whether the character sequence `error` occurs in the list. -/
def mentionsErrorChars : List Char → Bool
  | [] => false
  | c :: rest =>
      List.isPrefixOf ['e', 'r', 'r', 'o', 'r'] (c :: rest) ||
        mentionsErrorChars rest

/-- `true` iff the substring `error` occurs in the field name. -/
def mentionsError (f : String) : Bool :=
  mentionsErrorChars f.toList

/-! ## Object store: `S3Storage` (s3_storage.py)

The S3 service itself (boto3 client) is not part of the repository; it is
modelled as a key-value map with standard S3 semantics: `download`/`head`
report a 404 error for a missing key, while `delete_object` succeeds
whether or not the key exists. -/

/-- `name.replace` of a backslash by a forward slash
(s3_storage.py line 69; the pattern is a single character, so the
replacement is a character map). -/
def replaceBackslashes (s : String) : String :=
  String.mk (s.toList.map fun c => if c = '\\' then '/' else c)

/-- `name.lstrip` of forward slashes (s3_storage.py line 72). -/
def lstripSlashes (s : String) : String :=
  String.mk (s.toList.dropWhile fun c => c == '/')

/-- `location.rstrip` of forward slashes (s3_storage.py line 77). -/
def rstripSlashes (s : String) : String :=
  String.mk ((s.toList.reverse.dropWhile fun c => c == '/').reverse)

/-- `S3Storage._get_s3_key` (s3_storage.py lines 63-80): normalize Windows
backslashes, strip leading slashes, and prepend the configured location
prefix when it is non-empty (Python truthiness of `self.location`). -/
def get_s3_key (location name : String) : String :=
  let name := lstripSlashes (replaceBackslashes name)
  if location = "" then name
  else rstripSlashes location ++ "/" ++ name

/-- The S3 bucket contents: an association list from full keys to byte
blobs.  A fresh `save` shadows any earlier entry at the same key
(`file_overwrite` defaults to `True`, so `get_available_name` keeps the
same name and the upload overwrites). -/
structure S3State where
  objects : List (String × List Nat)
deriving DecidableEq, Repr

/-- S3 `download_fileobj`: the blob at the key, or a 404. -/
def s3Download (st : S3State) (key : String) : Option (List Nat) :=
  st.objects.lookup key

/-- S3 `put_object` / `upload_fileobj`: stores the blob at the key. -/
def s3Put (st : S3State) (key : String) (bytes : List Nat) : S3State :=
  ⟨(key, bytes) :: st.objects⟩

/-- S3 `delete_object`: removes the key if present; S3 reports success
even when the key does not exist, so no error branch exists here. -/
def s3DeleteObject (st : S3State) (key : String) : S3State :=
  ⟨st.objects.filter fun p => p.1 != key⟩

/-- S3 `head_object` success: the key is present. -/
def s3Head (st : S3State) (key : String) : Option Nat :=
  (s3Download st key).map List.length

/-- `S3Storage._save` (s3_storage.py lines 101-144): uploads the content
at `get_s3_key` and returns the caller's name. -/
def stor_save (location : String) (st : S3State) (name : String)
    (bytes : List Nat) : S3State × String :=
  (s3Put st (get_s3_key location name) bytes, name)

/-- `S3Storage._open` (s3_storage.py lines 82-99): downloads the blob at
`get_s3_key`; a 404 from S3 becomes a `FileNotFoundError`. -/
def stor_open (location : String) (st : S3State) (name : String) :
    Except String (List Nat) :=
  match s3Download st (get_s3_key location name) with
  | some bytes => Except.ok bytes
  | none => Except.error ("File not found in S3: " ++ get_s3_key location name)

/-- The bucket state after `S3Storage.delete` (s3_storage.py
lines 146-158). -/
def stor_delete_state (location : String) (st : S3State) (name : String) :
    S3State :=
  s3DeleteObject st (get_s3_key location name)

/-- `S3Storage.delete`: `delete_object` at the resolved key.  The
`ClientError` re-raise branch of the source is unreachable because S3's
`delete_object` succeeds for missing keys as well. -/
def stor_delete (location : String) (st : S3State) (name : String) :
    Except String S3State :=
  Except.ok (stor_delete_state location st name)

/-- `S3Storage.exists` (s3_storage.py lines 160-175): `head_object`
succeeds, or its 404 is turned into `False`. -/
def stor_exists (location : String) (st : S3State) (name : String) : Bool :=
  (s3Head st (get_s3_key location name)).isSome

/-! ## Spec-side definition for claim C8

Modelled from the spec: two caller-supplied names "denote the same logical
name up to path-separator style (backslash vs forward slash) and leading
separators". -/

/-- The logical name of a caller-supplied name: drop leading separators of
either style, then write every separator as a forward slash. -/
def specLogicalName (s : String) : String :=
  String.mk ((s.toList.dropWhile fun c => c == '/' || c == '\\').map
    fun c => if c = '\\' then '/' else c)

/-- Two caller-supplied names denote the same logical name. -/
def sameLogicalName (a b : String) : Prop :=
  specLogicalName a = specLogicalName b

/-! ## Channel-layer events (tasks.py senders)

`send_job_update_via_websocket` publishes to the group
`job_updates_{user_id}` a dict of internal type `job_status_update`
carrying the serialized job; `send_progress_update` publishes internal
type `job_progress_update` carrying `job_id` and a progress payload. -/

/-- The progress payload built in tasks.py (lines 96-112 and 144-150):
`view`, `step`, `total_steps`, `percentage`, and on the two hand-written
pre-generation updates an extra `message`.  The source computes
`int((step / total_steps) * 100)`; over the exact step counts the claims
use, this equals truncating natural division. -/
structure Progress where
  view : String
  step : Nat
  totalSteps : Nat
  percentage : Nat
  message : Option String
deriving DecidableEq, Repr

/-- An event published on the channel layer to group
`job_updates_{userId}`.  The constructor is the internal `type`
discriminator of the published dict. -/
inductive ChannelEvent where
  | statusUpdate (userId : Nat) (job : Job)
  | progressUpdate (userId : Nat) (jobId : Nat) (progress : Progress)
deriving DecidableEq, Repr

/-- The internal `type` field of the published channel-layer dict. -/
def channelEventType : ChannelEvent → String
  | .statusUpdate _ _ => "job_status_update"
  | .progressUpdate _ _ _ => "job_progress_update"

/-! ## Real-time gateway (consumers.py, middleware.py) -/

/-- A serialized message sent to the client over the WebSocket.  Absent
payload fields are `none`. -/
structure WireMessage where
  type : String
  job : Option Job := none
  message : Option String := none
deriving DecidableEq, Repr

/-- Delivery of one channel-layer event through `JobStatusConsumer`.
Channels dispatches a group message of internal type `t` to the consumer
method named `t`.  The class defines exactly one event handler,
`job_status_update` (consumers.py lines 59-68), which sends the wire
message of type `job_update` with the job snapshot.  A message of type
`job_progress_update` finds no handler method on the consumer, so nothing
is sent to the client for it. -/
def consumerHandle (ev : ChannelEvent) : Option WireMessage :=
  match ev with
  | .statusUpdate _ job => some { type := "job_update", job := some job }
  | .progressUpdate _ _ _ => none

/-- `get_user_from_token` (middleware.py lines 11-18): look the key up in
the token table (`Token.objects.get`); a missing key means
`AnonymousUser`, modelled as `none`. -/
def get_user_from_token (tokens : List (String × Nat)) (key : String) :
    Option Nat :=
  tokens.lookup key

/-- `TokenAuthMiddleware.__call__` (middleware.py lines 27-39): the
`token` query parameter (absent or blank gives `none`) resolves to the
scope user; no or unresolvable token leaves `AnonymousUser` (`none`). -/
def authenticate_scope (tokens : List (String × Nat))
    (queryToken : Option String) : Option Nat :=
  match queryToken with
  | some key => get_user_from_token tokens key
  | none => none

/-- An observable action taken by `JobStatusConsumer.connect`. -/
inductive ConnectAction where
  | close
  | groupAdd (group : String)
  | accept
  | send (msg : WireMessage)
deriving DecidableEq, Repr

/-- `JobStatusConsumer.connect` (consumers.py lines 16-40): an anonymous
scope user is closed immediately; otherwise join the group
`job_updates_{user.id}`, accept, and send `connection_established`. -/
def connect (user : Option Nat) : List ConnectAction :=
  match user with
  | none => [ConnectAction.close]
  | some uid =>
      [ConnectAction.groupAdd ("job_updates_" ++ toString uid),
       ConnectAction.accept,
       ConnectAction.send
         { type := "connection_established",
           message := some "Connected to job updates" }]

/-- Modelled from the spec, for claim C6: the connection attempt carries
"a missing or invalid bearer token" — either no `token` query parameter,
or one whose key resolves to no stored token. -/
def tokenRejected (tokens : List (String × Nat))
    (queryToken : Option String) : Prop :=
  queryToken = none ∨
    ∃ key, queryToken = some key ∧ get_user_from_token tokens key = none

/-! ## Job executor (tasks.py, `process_image_generation`)

The Generation Backend (`ImageGenerationService.generate_image`) is an
external collaborator: it is modelled as a function from the invocation
index to a run record — the progress-callback invocations it performs and
then either the produced image bytes or the message of the exception it
raises. -/

/-- One Generation Backend invocation: progress callbacks `(step, total)`
in order, then a result or a raised exception message. -/
structure GenRun where
  progress : List (Nat × Nat)
  result : Except String (List Nat)

/-- How one task invocation ended: normal completion, the
`Job.DoesNotExist` handler, or the generic exception handler (which may
lead Celery to retry). -/
inductive AttemptOutcome where
  | success
  | jobNotFound
  | raised (msg : String)
deriving DecidableEq, Repr

/-- The observable state the task reads and writes: the job record in the
Job Store (`none` when `Job.objects.get` raises `DoesNotExist`), the
number of Generation Backend invocations so far, every status value
written to the store in order, every artifact write `(name, bytes)` to
the Object Store in order, and every event published on the channel
layer in order. -/
structure ExecState where
  job : Option Job
  backendCalls : Nat
  statusWrites : List Status
  artifacts : List (String × List Nat)
  events : List ChannelEvent
deriving Repr

/-- The generic exception handler's job update (tasks.py lines 198-201):
re-fetch the job and set `status = failed`.  The exception text is only
logged; the `Job` model has no error field, so nothing of `msg` is
recorded on the job. -/
def failUpdate (j : Job) (_msg : String) : Job :=
  { j with status := Status.failed }

/-- The generic exception handler (tasks.py lines 195-207): update the
job to `failed` and publish its snapshot; if the re-fetch itself fails the
inner error is swallowed. -/
def applyFailHandler (msg : String) (st : ExecState) : ExecState :=
  match st.job with
  | none => st
  | some j =>
      let jf := failUpdate j msg
      { st with
          job := some jf,
          statusWrites := st.statusWrites ++ [Status.failed],
          events := st.events ++ [ChannelEvent.statusUpdate j.userId jf] }

/-- The progress events published while one backend invocation runs: the
callback in tasks.py lines 96-102 forwards each `(step, total)` with the
view name and `int((step / total) * 100)`. -/
def callbackEvents (uid jid : Nat) (view : String)
    (calls : List (Nat × Nat)) : List ChannelEvent :=
  calls.map fun p =>
    ChannelEvent.progressUpdate uid jid
      { view := view, step := p.1, totalSteps := p.2,
        percentage := p.1 * 100 / p.2, message := none }

/-- The body of one `process_image_generation` task invocation (tasks.py
lines 54-213), faithful to the source order of store writes and event
publications:

1. fetch the job (`DoesNotExist` returns an error dict);
2. write status `processing` and publish the snapshot;
3. publish the hand-written `rear` step-0 progress update, invoke the
   backend for the rear view (its callbacks publish progress events);
   on an exception run the fail handler and hand the exception to Celery;
4. save the rear artifact, record it on the job, publish the snapshot;
5. publish the `side` step-0 progress update, invoke the backend for the
   side view, same exception path;
6. save the side artifact, record it on the job, write status
   `completed`, and publish the final snapshot.

`numSteps` is the configured inference step count (`PROMPTS` config). -/
def attemptOnce (backend : Nat → GenRun) (numSteps : Nat)
    (st : ExecState) : ExecState × AttemptOutcome :=
  match st.job with
  | none => (st, AttemptOutcome.jobNotFound)
  | some job0 =>
      let uid := job0.userId
      let jid := job0.id
      let job1 : Job := { job0 with status := Status.processing }
      let st1 : ExecState :=
        { st with
            job := some job1,
            statusWrites := st.statusWrites ++ [Status.processing],
            events := st.events ++ [ChannelEvent.statusUpdate uid job1] }
      let st2 : ExecState :=
        { st1 with
            events := st1.events ++
              [ChannelEvent.progressUpdate uid jid
                { view := "rear", step := 0, totalSteps := numSteps,
                  percentage := 0,
                  message := some "Starting rear view generation..." }] }
      let rearRun := backend st2.backendCalls
      let st3 : ExecState :=
        { st2 with
            backendCalls := st2.backendCalls + 1,
            events := st2.events ++
              callbackEvents uid jid "rear" rearRun.progress }
      match rearRun.result with
      | Except.error msg => (applyFailHandler msg st3, AttemptOutcome.raised msg)
      | Except.ok rearBytes =>
          let rearName := "simulations/" ++ toString jid ++ "_rear.jpg"
          let job2 : Job := { job1 with simulation1Image := some rearName }
          let st4 : ExecState :=
            { st3 with
                job := some job2,
                artifacts := st3.artifacts ++ [(rearName, rearBytes)],
                events := st3.events ++ [ChannelEvent.statusUpdate uid job2] }
          let st5 : ExecState :=
            { st4 with
                events := st4.events ++
                  [ChannelEvent.progressUpdate uid jid
                    { view := "side", step := 0, totalSteps := numSteps,
                      percentage := 0,
                      message := some "Starting side view generation..." }] }
          let sideRun := backend st5.backendCalls
          let st6 : ExecState :=
            { st5 with
                backendCalls := st5.backendCalls + 1,
                events := st5.events ++
                  callbackEvents uid jid "side" sideRun.progress }
          match sideRun.result with
          | Except.error msg =>
              (applyFailHandler msg st6, AttemptOutcome.raised msg)
          | Except.ok sideBytes =>
              let sideName := "simulations/" ++ toString jid ++ "_side.jpg"
              let job3 : Job := { job2 with simulation2Image := some sideName }
              let job4 : Job := { job3 with status := Status.completed }
              let st7 : ExecState :=
                { st6 with
                    job := some job4,
                    artifacts := st6.artifacts ++ [(sideName, sideBytes)],
                    statusWrites := st6.statusWrites ++ [Status.completed],
                    events := st6.events ++
                      [ChannelEvent.statusUpdate uid job4] }
              (st7, AttemptOutcome.success)

/-- The Celery retry driver around the task body (tasks.py lines 53 and
209-213): the decorator carries `max_retries`; an attempt that reached
the generic exception handler calls `self.retry` while
`self.request.retries < self.max_retries`, which re-delivers the task
with the retry counter incremented; otherwise it returns the error dict
and no further attempt happens.  With `retries` retries already
consumed, the guard `retries < max_retries` permits exactly
`max_retries - retries` further re-deliveries; that count is
`remaining`, the structural recursion measure. -/
def runTask (backend : Nat → GenRun) (numSteps : Nat) :
    Nat → ExecState → ExecState
  | remaining, st =>
      let r := attemptOnce backend numSteps st
      match r.2 with
      | AttemptOutcome.raised _ =>
          match remaining with
          | 0 => r.1
          | remaining + 1 => runTask backend numSteps remaining r.1
      | _ => r.1

/-- `process_image_generation` as first delivered: the retry counter is
0, so all `maxRetries` re-deliveries remain. -/
def process_image_generation (backend : Nat → GenRun)
    (numSteps maxRetries : Nat) (st : ExecState) : ExecState :=
  runTask backend numSteps maxRetries st

/-- The `max_retries` configured on the task decorator
(`@shared_task(bind=True, max_retries=3)`, tasks.py line 53). -/
def configuredMaxRetries : Nat := 3

/-! ## Spec-side definition for claim C1

Modelled from the spec: the status sequence recorded in the Job Store
"follows queued → processing → (completed or failed)" and the two end
states are terminal. -/

/-- The transitions the spec's state machine allows. -/
def specAllowedTransition : Status → Status → Bool
  | Status.queued, Status.processing => true
  | Status.processing, Status.completed => true
  | Status.processing, Status.failed => true
  | _, _ => false

/-- A recorded status sequence follows the spec's state machine. -/
def specValidStatusSequence : List Status → Bool
  | [] => true
  | [_] => true
  | a :: b :: rest =>
      specAllowedTransition a b && specValidStatusSequence (b :: rest)

/-! ## Job deletion (views.py, `JobViewSet.perform_destroy`)

The source reads Django model attributes by name, so attribute access is
embedded explicitly: `getattrJob` returns the value of a `Job` attribute,
or `none` when the model defines no attribute of that name (Python then
raises `AttributeError`). -/

/-- A Python attribute value of a `Job` instance. -/
inductive JobAttr where
  | natVal (n : Nat)
  | strVal (s : Option String)
  | boolVal (b : Bool)
  | statusVal (s : Status)
  | fileField (name : Option String)
deriving DecidableEq, Repr

/-- Attribute lookup on a `Job` instance: exactly the fields declared by
the `Job` model in models.py (`scenario` is the field embedded as
`scenarioLevel`).  Any other name is an `AttributeError`, `none`. -/
def getattrJob (j : Job) : String → Option JobAttr
  | "id" => some (JobAttr.natVal j.id)
  | "user" => some (JobAttr.natVal j.userId)
  | "region" => some (JobAttr.strVal (some j.region))
  | "scenario" => some (JobAttr.strVal (some j.scenarioLevel))
  | "status" => some (JobAttr.statusVal j.status)
  | "message" => some (JobAttr.strVal j.message)
  | "selected_simulation" => some (JobAttr.strVal j.selectedSimulation)
  | "is_favorite" => some (JobAttr.boolVal j.isFavorite)
  | "original_image" => some (JobAttr.fileField j.originalImage)
  | "simulation1_image" => some (JobAttr.fileField j.simulation1Image)
  | "simulation2_image" => some (JobAttr.fileField j.simulation2Image)
  | _ => none

/-- Truthiness test and blob deletion of a file-field attribute:
`if instance.<field>: instance.<field>.delete(save=False)` deletes the
stored blob name when the field holds one. -/
def attrDeleteList : JobAttr → List String
  | JobAttr.fileField (some n) => [n]
  | _ => []

/-- `JobViewSet.perform_destroy` (views.py lines 234-247), attribute
access spelled out in source order: check and delete
`instance.original_image`, then check and delete
`instance.simulation_image`, then delete the job record.  On success the
value is the list of deleted blob names and `true` for the deleted
record; an undefined attribute is an `AttributeError`. -/
def perform_destroy (j : Job) : Except String (List String × Bool) :=
  match getattrJob j "original_image" with
  | none => Except.error "AttributeError: original_image"
  | some a1 =>
      match getattrJob j "simulation_image" with
      | none => Except.error "AttributeError: simulation_image"
      | some a2 =>
          Except.ok (attrDeleteList a1 ++ attrDeleteList a2, true)

/-! ## Serializer URL methods (serializers.py, sample_images.py) -/

/-- `SAMPLE_IMAGES` of sample_images.py: the fixed external placeholder
URLs returned by `get_sample_simulation_urls`. -/
def sampleSimulation1Url : String :=
  "https://images.unsplash.com/photo-1571019613454-1cb2f99b2d8b?w=800&q=80"

/-- The `simulation2` entry of `SAMPLE_IMAGES`. -/
def sampleSimulation2Url : String :=
  "https://images.unsplash.com/photo-1534438327276-14e5300c3a48?w=800&q=80"

/-- `JobSerializer._get_s3_url` (serializers.py lines 95-109): `None` for
an empty field, otherwise the storage URL of the stored name.  The
storage and request URL construction is the external parameter
`urlOf`. -/
def get_s3_url (urlOf : String → String) (field : Option String) :
    Option String :=
  match field with
  | none => none
  | some n => some (urlOf n)

/-- Python truthiness of the `url` local (`None` and the empty string are
falsy). -/
def urlTruthy : Option String → Bool
  | none => false
  | some s => s != ""

/-- `JobSerializer.get_simulation1_url` (serializers.py lines 114-122):
the real URL when one exists, else the fixed sample placeholder for a
`completed` job, else `None`. -/
def get_simulation1_url (urlOf : String → String) (j : Job) :
    Option String :=
  let url := get_s3_url urlOf j.simulation1Image
  if urlTruthy url then url
  else if j.status = Status.completed then some sampleSimulation1Url
  else none

/-- `JobSerializer.get_simulation2_url` (serializers.py lines 124-132). -/
def get_simulation2_url (urlOf : String → String) (j : Job) :
    Option String :=
  let url := get_s3_url urlOf j.simulation2Image
  if urlTruthy url then url
  else if j.status = Status.completed then some sampleSimulation2Url
  else none

/-! ## Concrete fixtures used by counterexamples and witnesses -/

/-- A freshly created job (`perform_create` saves with status
`queued`). -/
def jobA : Job :=
  { id := 1, userId := 7, region := "gluteal",
    scenarioLevel := "projection-level-2", status := Status.queued,
    message := none, selectedSimulation := none, isFavorite := false,
    originalImage := some "originals/a.jpg",
    simulation1Image := none, simulation2Image := none }

/-- The same job after a completed run: both simulation blobs stored. -/
def jobDone : Job :=
  { jobA with
      status := Status.completed,
      simulation1Image := some "simulations/1_rear.jpg",
      simulation2Image := some "simulations/1_side.jpg" }

/-- The initial executor state: `jobA` queued, nothing yet observed. -/
def st0 : ExecState :=
  { job := some jobA, backendCalls := 0, statusWrites := [],
    artifacts := [], events := [] }

/-- The executor state holding the already-completed `jobDone`. -/
def stDone : ExecState :=
  { job := some jobDone, backendCalls := 2, statusWrites := [],
    artifacts := [], events := [] }

/-- A Generation Backend that raises on every invocation. -/
def raisingBackend : Nat → GenRun :=
  fun _ => { progress := [], result := Except.error "CUDA out of memory" }

/-- A Generation Backend that always returns a small image. -/
def okBackend : Nat → GenRun :=
  fun _ => { progress := [(10, 20)], result := Except.ok [255, 0, 255] }

/-! ## Helper lemmas -/

/-- Looking a key up after filtering out every pair with that key finds
nothing. -/
theorem lookup_filter_ne (k : String) :
    ∀ l : List (String × List Nat),
      ((l.filter fun p => p.1 != k).lookup k) = none := by
  intro l
  induction l with
  | nil => rfl
  | cons p l ih =>
      by_cases hp : p.1 = k
      · simpa [List.filter_cons, hp] using ih
      · have hk : (k == p.1) = false := beq_eq_false_iff_ne.mpr (Ne.symm hp)
        have hne : (p.1 != k) = true := by
          simp [bne_iff_ne]
          exact hp
        rw [List.filter_cons, if_pos hne, List.lookup, hk]
        exact ih

/-- Dropping leading slashes after writing backslashes as slashes equals
writing backslashes as slashes after dropping leading separators of
either style. -/
theorem dropWhile_slash_map (l : List Char) :
    ((l.map fun c => if c = '\\' then '/' else c).dropWhile
        fun c => c == '/')
      = (l.dropWhile fun c => c == '/' || c == '\\').map
          fun c => if c = '\\' then '/' else c := by
  induction l with
  | nil => rfl
  | cons c l ih =>
      by_cases h1 : c = '\\'
      · simpa [h1, List.dropWhile_cons] using ih
      · by_cases h2 : c = '/'
        · simpa [h1, h2, List.dropWhile_cons] using ih
        · simp [h1, h2, List.dropWhile_cons]

/-- The key-resolution normalization of `_get_s3_key` computes exactly
the spec's logical name. -/
theorem lstrip_replace_eq_specLogicalName (s : String) :
    lstripSlashes (replaceBackslashes s) = specLogicalName s := by
  simp only [lstripSlashes, replaceBackslashes, specLogicalName,
    String.toList, dropWhile_slash_map]

/-! ## Claims -/

/-- C9 — the claim says the explicit delete request destroys the job
record and deletes every associated Object Store blob (the original image
and all recorded simulation artifacts) without raising.  The code
contradicts its own data model: `perform_destroy` reads
`instance.simulation_image`, but the `Job` model declares
`simulation1_image` and `simulation2_image` and no `simulation_image`,
so for every job the delete request raises `AttributeError` after
deleting at most the original-image blob; the record is not destroyed
and no simulation blob is deleted.  In particular the completed
`jobDone`, which holds an original image and two stored simulation
blobs, cannot be deleted. -/
theorem claim_C9 :
    (∀ j, perform_destroy j
        = Except.error "AttributeError: simulation_image") ∧
    perform_destroy jobDone
        = Except.error "AttributeError: simulation_image" :=
  ⟨fun _ => rfl, rfl⟩

/-- C10 — for a job serialized while `completed`, a simulation image
field holding no stored blob is reported as the fixed external sample
placeholder URL instead of null, and a completed job snapshot never has
a null simulation URL (whatever URL the storage layer produces). -/
theorem claim_C10 (urlOf : String → String) (j : Job)
    (h : j.status = Status.completed) :
    (j.simulation1Image = none →
      get_simulation1_url urlOf j = some sampleSimulation1Url) ∧
    (j.simulation2Image = none →
      get_simulation2_url urlOf j = some sampleSimulation2Url) ∧
    get_simulation1_url urlOf j ≠ none ∧
    get_simulation2_url urlOf j ≠ none := by
  refine ⟨?_, ?_, ?_, ?_⟩
  · intro h1
    simp [get_simulation1_url, get_s3_url, h1, urlTruthy, h]
  · intro h2
    simp [get_simulation2_url, get_s3_url, h2, urlTruthy, h]
  · cases hf : j.simulation1Image with
    | none => simp [get_simulation1_url, get_s3_url, hf, urlTruthy, h]
    | some n =>
        by_cases hu : urlOf n = ""
        · simp [get_simulation1_url, get_s3_url, hf, urlTruthy, hu, h]
        · simp [get_simulation1_url, get_s3_url, hf, urlTruthy, hu]
  · cases hf : j.simulation2Image with
    | none => simp [get_simulation2_url, get_s3_url, hf, urlTruthy, h]
    | some n =>
        by_cases hu : urlOf n = ""
        · simp [get_simulation2_url, get_s3_url, hf, urlTruthy, hu, h]
        · simp [get_simulation2_url, get_s3_url, hf, urlTruthy, hu]

/-- C7 — Object Store round-trip, for every name and byte sequence:
`save` then `open` returns exactly the saved bytes; after `delete` the
name no longer `exists`; and `delete` never raises — in particular not on
a name that does not exist (S3's `delete_object` succeeds for missing
keys, so the error branch of the source is unreachable). -/
theorem claim_C7 (location : String) (st : S3State) (name : String)
    (bytes : List Nat) :
    stor_open location (stor_save location st name bytes).1 name
        = Except.ok bytes ∧
    stor_delete location st name
        = Except.ok (stor_delete_state location st name) ∧
    stor_exists location (stor_delete_state location st name) name
        = false := by
  refine ⟨?_, rfl, ?_⟩
  · simp [stor_open, stor_save, s3Download, s3Put, List.lookup]
  · simp [stor_exists, stor_delete_state, s3DeleteObject, s3Head,
      s3Download, lookup_filter_ne]

/-- C8 — two caller-supplied names that denote the same logical name up
to path-separator style and leading separators resolve to the identical
storage key under any configured key prefix. -/
theorem claim_C8 (location a b : String) (h : sameLogicalName a b) :
    get_s3_key location a = get_s3_key location b := by
  have hab : lstripSlashes (replaceBackslashes a)
      = lstripSlashes (replaceBackslashes b) := by
    rw [lstrip_replace_eq_specLogicalName, lstrip_replace_eq_specLogicalName]
    exact h
  simp [get_s3_key, hab]

/-- Witness for C8: a Windows-style and a leading-slash spelling of the
same logical name resolve to the same key under the `media` prefix. -/
theorem witness_C8 :
    sameLogicalName "\\media/photos/img.jpg" "//media\\photos\\img.jpg" ∧
    get_s3_key "media" "\\media/photos/img.jpg"
        = get_s3_key "media" "//media\\photos\\img.jpg" :=
  ⟨rfl, claim_C8 "media" "\\media/photos/img.jpg" "//media\\photos\\img.jpg" rfl⟩

/-- C4, counterexample — the claim says the transition to `failed`
records a bounded, truncated error detail on the job.  At the concrete
job `jobA` failing with message `backend exploded`, the failure update
yields a record identical to `jobA` except for `status`: the update is
independent of the error message, and no field of the serialized job
snapshot mentions an error at all, so no error detail is recorded
anywhere. -/
theorem counterexample_C4 :
    failUpdate jobA "backend exploded" = { jobA with status := Status.failed } ∧
    failUpdate jobA "backend exploded" = failUpdate jobA "a different error" ∧
    jobSerializerFields.any mentionsError = false :=
  ⟨rfl, rfl, by decide⟩

/-- C4, amended — the transition to `failed` updates only the job's
status: the `Job` model has no error-detail field (no serializer field
mentions an error), so the failure message is never recorded and an
error detail is never present on a job (making "present only when
status = failed" hold vacuously). -/
theorem claim_C4 :
    (∀ j msg, failUpdate j msg = { j with status := Status.failed }) ∧
    jobSerializerFields.any mentionsError = false :=
  ⟨fun _ _ => rfl, by decide⟩

/-- C5, counterexample — the claim says job-status events reach the
client with wire type `job_status_update` and progress events are
delivered with type `job_progress_update`.  At a concrete status event
the consumer sends wire type `job_update` instead, and at a concrete
progress event the consumer (which defines no `job_progress_update`
handler) delivers nothing at all. -/
theorem counterexample_C5 :
    channelEventType (ChannelEvent.statusUpdate 7 jobDone)
        = "job_status_update" ∧
    consumerHandle (ChannelEvent.statusUpdate 7 jobDone)
        = some { type := "job_update", job := some jobDone } ∧
    "job_update" ≠ "job_status_update" ∧
    consumerHandle
        (ChannelEvent.progressUpdate 7 1
          { view := "rear", step := 5, totalSteps := 20, percentage := 25,
            message := none }) = none :=
  ⟨rfl, rfl, by decide, rfl⟩

/-- C5, amended — every job-status event forwarded to a connected client
is sent with wire type `job_update` carrying the job snapshot; progress
events are published on the channel layer with internal type
`job_progress_update` (carrying job id and a progress payload with view,
step, total steps and percentage), but the consumer has no handler for
that type, so no progress event is ever delivered to a client. -/
theorem claim_C5 :
    (∀ u j, consumerHandle (ChannelEvent.statusUpdate u j)
        = some { type := "job_update", job := some j }) ∧
    (∀ u jid p,
      channelEventType (ChannelEvent.progressUpdate u jid p)
          = "job_progress_update" ∧
      consumerHandle (ChannelEvent.progressUpdate u jid p) = none) :=
  ⟨fun _ _ => rfl, fun _ _ _ => ⟨rfl, rfl⟩⟩

/-- C6 — a connection attempt whose bearer token is missing or invalid
is closed immediately: the observable actions are exactly `close`, so no
channel group membership is created and no `connection_established`
message is sent. -/
theorem claim_C6 (tokens : List (String × Nat)) (qt : Option String)
    (h : tokenRejected tokens qt) :
    connect (authenticate_scope tokens qt) = [ConnectAction.close] ∧
    (∀ g, ConnectAction.groupAdd g ∉ connect (authenticate_scope tokens qt)) ∧
    (∀ m, ConnectAction.send m ∉ connect (authenticate_scope tokens qt)) := by
  have hn : authenticate_scope tokens qt = none := by
    rcases h with h | ⟨key, hk, hl⟩
    · simp [authenticate_scope, h]
    · simp [authenticate_scope, hk, hl]
  rw [hn]
  refine ⟨rfl, ?_, ?_⟩
  · intro g hg
    simp [connect] at hg
  · intro m hm
    simp [connect] at hm

/-- Witness for C6: one registered token `sekret`, a connection attempt
presenting the invalid token `wrong`. -/
theorem witness_C6 :
    tokenRejected [("sekret", 7)] (some "wrong") ∧
    (connect (authenticate_scope [("sekret", 7)] (some "wrong"))
        = [ConnectAction.close] ∧
      (∀ g, ConnectAction.groupAdd g
          ∉ connect (authenticate_scope [("sekret", 7)] (some "wrong"))) ∧
      (∀ m, ConnectAction.send m
          ∉ connect (authenticate_scope [("sekret", 7)] (some "wrong")))) :=
  ⟨Or.inr ⟨"wrong", rfl, rfl⟩,
   claim_C6 [("sekret", 7)] (some "wrong") (Or.inr ⟨"wrong", rfl, rfl⟩)⟩

/-- Witness for C10 at a concrete completed job with no stored
simulation blobs and a storage layer producing blank URLs. -/
theorem witness_C10 :
    (({ jobA with status := Status.completed } : Job).simulation1Image
        = none →
      get_simulation1_url (fun _ => "") { jobA with status := Status.completed }
        = some sampleSimulation1Url) ∧
    (({ jobA with status := Status.completed } : Job).simulation2Image
        = none →
      get_simulation2_url (fun _ => "") { jobA with status := Status.completed }
        = some sampleSimulation2Url) ∧
    get_simulation1_url (fun _ => "") { jobA with status := Status.completed }
        ≠ none ∧
    get_simulation2_url (fun _ => "") { jobA with status := Status.completed }
        ≠ none :=
  claim_C10 (fun _ => "") { jobA with status := Status.completed } rfl

/-- One task invocation under a Generation Backend that raises on every
invocation: the outcome is the generic exception handler, exactly one
more backend call has happened, and the stored job is the original with
status `failed`. -/
theorem attemptOnce_raises (backend : Nat → GenRun)
    (hB : ∀ n, ∃ m, (backend n).result = Except.error m)
    (numSteps : Nat) (st : ExecState) (j : Job) (h : st.job = some j) :
    ∃ msg, (attemptOnce backend numSteps st).2 = AttemptOutcome.raised msg ∧
      (attemptOnce backend numSteps st).1.backendCalls = st.backendCalls + 1 ∧
      (attemptOnce backend numSteps st).1.job =
        some { j with status := Status.failed } := by
  obtain ⟨m, hm⟩ := hB st.backendCalls
  refine ⟨m, ?_⟩
  simp [attemptOnce, h, hm, applyFailHandler, failUpdate]

/-- The retry driver under an always-raising Generation Backend:
with `remaining` re-deliveries left it performs `remaining + 1` attempts,
each one backend invocation, and leaves the job `failed`. -/
theorem runTask_raising (backend : Nat → GenRun)
    (hB : ∀ n, ∃ m, (backend n).result = Except.error m) (numSteps : Nat) :
    ∀ remaining st j, st.job = some j →
      (runTask backend numSteps remaining st).backendCalls
          = st.backendCalls + remaining + 1 ∧
      ∃ j2, (runTask backend numSteps remaining st).job = some j2 ∧
        j2.status = Status.failed := by
  intro remaining
  induction remaining with
  | zero =>
      intro st j h
      obtain ⟨msg, ho, hc, hj⟩ :=
        attemptOnce_raises backend hB numSteps st j h
      rw [runTask]
      simp only [ho]
      exact ⟨by rw [hc], ⟨_, hj, rfl⟩⟩
  | succ d ih =>
      intro st j h
      obtain ⟨msg, ho, hc, hj⟩ :=
        attemptOnce_raises backend hB numSteps st j h
      rw [runTask]
      simp only [ho]
      have hrec := ih (attemptOnce backend numSteps st).1 _ hj
      refine ⟨?_, hrec.2⟩
      rw [hrec.1, hc]
      omega

/-- C3 — for a job present in the store whose Generation Backend raises
on every invocation, the executor invokes the backend exactly
`maxRetries + 1` times in total, the job's status is then `failed`, and
no further attempt is made (the count is exact). -/
theorem claim_C3 (backend : Nat → GenRun)
    (hB : ∀ n, ∃ m, (backend n).result = Except.error m)
    (numSteps maxRetries : Nat) (st : ExecState) (j : Job)
    (h : st.job = some j) :
    (process_image_generation backend numSteps maxRetries st).backendCalls
        = st.backendCalls + (maxRetries + 1) ∧
    ∃ j2, (process_image_generation backend numSteps maxRetries st).job
        = some j2 ∧ j2.status = Status.failed := by
  have hrun := runTask_raising backend hB numSteps maxRetries st j h
  refine ⟨?_, hrun.2⟩
  rw [process_image_generation, hrun.1]
  omega

/-- Witness for C3: the configured `max_retries = 3` and an
always-raising backend give exactly 4 backend invocations and a `failed`
job. -/
theorem witness_C3 :
    (process_image_generation raisingBackend 20 configuredMaxRetries st0).backendCalls
        = st0.backendCalls + (configuredMaxRetries + 1) ∧
    ∃ j2, (process_image_generation raisingBackend 20 configuredMaxRetries st0).job
        = some j2 ∧ j2.status = Status.failed :=
  claim_C3 raisingBackend (fun _ => ⟨"CUDA out of memory", rfl⟩) 20
    configuredMaxRetries st0 jobA rfl

/-- C1, counterexample — the claim says the status sequence recorded for
a job follows `queued → processing → (completed | failed)` with
`completed` and `failed` terminal even across retried attempts.  For the
queued job `jobA` under an always-raising backend with the configured
`max_retries = 3`, the store records
`processing, failed, processing, failed, processing, failed, processing,
failed`: each retried attempt moves the job from `failed` back to
`processing`, so the recorded sequence violates the claimed order. -/
theorem counterexample_C1 :
    (process_image_generation raisingBackend 20 configuredMaxRetries st0).statusWrites
        = [Status.processing, Status.failed, Status.processing, Status.failed,
           Status.processing, Status.failed, Status.processing, Status.failed] ∧
    specValidStatusSequence
        (Status.queued ::
          (process_image_generation raisingBackend 20 configuredMaxRetries
              st0).statusWrites)
        = false :=
  ⟨rfl, rfl⟩

/-- C1, amended — within one execution attempt the recorded statuses do
follow the claimed order: an attempt on a stored job appends exactly
`processing, completed` or `processing, failed`.  Across attempts the
order is not preserved: a retried attempt of a `failed` job writes
`processing` again (see the counterexample), so neither `completed` nor
`failed` is terminal against a re-delivered or retried execution. -/
theorem claim_C1 (backend : Nat → GenRun) (numSteps : Nat)
    (st : ExecState) (j : Job) (h : st.job = some j) :
    ∃ tail, (attemptOnce backend numSteps st).1.statusWrites
        = st.statusWrites ++ tail ∧
      (tail = [Status.processing, Status.completed] ∨
       tail = [Status.processing, Status.failed]) := by
  cases hr : (backend st.backendCalls).result with
  | error msg =>
      refine ⟨[Status.processing, Status.failed], ?_, Or.inr rfl⟩
      simp [attemptOnce, h, hr, applyFailHandler, failUpdate]
  | ok rb =>
      cases hs : (backend (st.backendCalls + 1)).result with
      | error msg =>
          refine ⟨[Status.processing, Status.failed], ?_, Or.inr rfl⟩
          simp [attemptOnce, h, hr, hs, applyFailHandler, failUpdate]
      | ok sb =>
          refine ⟨[Status.processing, Status.completed], ?_, Or.inl rfl⟩
          simp [attemptOnce, h, hr, hs]

/-- Witness for C1 at the queued job `jobA` under a succeeding
backend. -/
theorem witness_C1 :
    ∃ tail, (attemptOnce okBackend 20 st0).1.statusWrites
        = st0.statusWrites ++ tail ∧
      (tail = [Status.processing, Status.completed] ∨
       tail = [Status.processing, Status.failed]) :=
  claim_C1 okBackend 20 st0 jobA rfl

/-- C2, counterexample — the claim says delivering the ID of an
already-`completed` job a second time is a no-op with no artifact writes
and no events.  Delivering the completed `jobDone` again re-runs the
whole pipeline: two more artifacts are written, seven more events are
published, and `processing` then `completed` are written to the store
again. -/
theorem counterexample_C2 :
    jobDone.status = Status.completed ∧
    (attemptOnce okBackend 20 stDone).1.artifacts.length
        = stDone.artifacts.length + 2 ∧
    (attemptOnce okBackend 20 stDone).1.events.length
        = stDone.events.length + 7 ∧
    (attemptOnce okBackend 20 stDone).1.statusWrites
        = stDone.statusWrites ++ [Status.processing, Status.completed] :=
  ⟨rfl, rfl, rfl, rfl⟩

/-- C2, amended — the executor has no claim step: delivering the ID of a
job already in status `completed` a second time is not a no-op.  The
task unconditionally writes `processing` (followed by a terminal write),
publishes at least one more event, and never removes artifacts. -/
theorem claim_C2 (backend : Nat → GenRun) (numSteps : Nat)
    (st : ExecState) (j : Job) (h : st.job = some j)
    (_hc : j.status = Status.completed) :
    (∃ tail, (attemptOnce backend numSteps st).1.statusWrites
        = st.statusWrites ++ (Status.processing :: tail)) ∧
    st.events.length < (attemptOnce backend numSteps st).1.events.length ∧
    st.artifacts.length
        ≤ (attemptOnce backend numSteps st).1.artifacts.length := by
  cases hr : (backend st.backendCalls).result with
  | error msg =>
      refine ⟨⟨[Status.failed], ?_⟩, ?_, ?_⟩ <;>
        simp [attemptOnce, h, hr, applyFailHandler, failUpdate]
  | ok rb =>
      cases hs : (backend (st.backendCalls + 1)).result with
      | error msg =>
          refine ⟨⟨[Status.failed], ?_⟩, ?_, ?_⟩ <;>
            simp [attemptOnce, h, hr, hs, applyFailHandler, failUpdate]
      | ok sb =>
          refine ⟨⟨[Status.completed], ?_⟩, ?_, ?_⟩ <;>
            simp [attemptOnce, h, hr, hs]

/-- Witness for C2: re-delivering the completed `jobDone`. -/
theorem witness_C2 :
    (∃ tail, (attemptOnce okBackend 20 stDone).1.statusWrites
        = stDone.statusWrites ++ (Status.processing :: tail)) ∧
    stDone.events.length < (attemptOnce okBackend 20 stDone).1.events.length ∧
    stDone.artifacts.length
        ≤ (attemptOnce okBackend 20 stDone).1.artifacts.length :=
  claim_C2 okBackend 20 stDone jobDone rfl rfl

end Getravio
